import Mathlib

/-!
Shallow embedding of the data-normalization layer of `bimmer_connected`
(`src/bimmer_connected/vehicle_status.py` and `src/bimmer_connected/utils.py`)
together with proofs about the claims of the specification.

Conventions of the embedding:
* Python runtime values reaching this layer (JSON-decoded payloads and the
  tuples built by the properties) are modelled by `PyObj`.  JSON numbers are
  modelled as integers (every numeric field touched by the claims is an
  integer in the payloads).  Python `None` and JSON `null` coincide after
  `json.loads`, and are both `PyObj.null`.
* Raising an exception is modelled with `Except PyErr`; the exception classes
  that the code distinguishes (`KeyError` caught by the decorator, everything
  else re-raised) are the constructors of `PyErr`.
* Log emission (the `_LOGGER.debug` in the decorator and the `_LOGGER.error`
  in `parse_datetime`) is modelled by companion boolean functions that decide
  whether the logging line is reached, next to the value-returning functions.
* `datetime.datetime.strptime` is modelled for the four format strings used
  by `parse_datetime`, following the regular expressions of CPython's
  `_strptime.TimeRE` for Python >= 3.7 (the `sys.version_info < (3, 7)`
  branch of `parse_datetime` is dead on every interpreter the library now
  runs on and is not modelled).  CPython compiles the format regex with
  `re.IGNORECASE`, so literal characters of a format match either case,
  while the `Z` alternative of the `%z` directive is explicitly
  case-sensitive (`(?-i:Z)`); `%z` offsets carry an optional seconds part
  with an optional fraction, and the colon-consistency check of
  `_strptime` applies.
-/

/-- Python exceptions distinguished by the code under embedding. -/
inductive PyErr where
  | keyError (key : String)
  | valueError (msg : String)
  | typeError (msg : String)
  | attributeError (msg : String)
  | indexError (msg : String)
  deriving Repr, DecidableEq

/-- Is the exception a `KeyError`?  (The only class the decorator catches.) -/
def PyErr.isKeyError : PyErr → Bool
  | .keyError _ => true
  | _ => false

/-- Python runtime values handled by the normalization layer: JSON-decoded
data (`null`, booleans, integers, strings, lists, dicts) plus the tuples
built by the derived properties. -/
inductive PyObj where
  | null
  | bool (b : Bool)
  | int (n : Int)
  | str (s : String)
  | list (l : List PyObj)
  | tuple (l : List PyObj)
  | dict (l : List (String × PyObj))
  deriving Repr

mutual

def PyObj.hasDecEq : (a b : PyObj) → Decidable (a = b)
  | .null, .null => isTrue rfl
  | .bool a, .bool b =>
    match decEq a b with
    | isTrue h => isTrue (h ▸ rfl)
    | isFalse h => isFalse (by simp only [PyObj.bool.injEq]; exact h)
  | .int a, .int b =>
    match decEq a b with
    | isTrue h => isTrue (h ▸ rfl)
    | isFalse h => isFalse (by simp only [PyObj.int.injEq]; exact h)
  | .str a, .str b =>
    match decEq a b with
    | isTrue h => isTrue (h ▸ rfl)
    | isFalse h => isFalse (by simp only [PyObj.str.injEq]; exact h)
  | .list a, .list b =>
    match PyObj.hasDecEqList a b with
    | isTrue h => isTrue (h ▸ rfl)
    | isFalse h => isFalse (by simp only [PyObj.list.injEq]; exact h)
  | .tuple a, .tuple b =>
    match PyObj.hasDecEqList a b with
    | isTrue h => isTrue (h ▸ rfl)
    | isFalse h => isFalse (by simp only [PyObj.tuple.injEq]; exact h)
  | .dict a, .dict b =>
    match PyObj.hasDecEqKVList a b with
    | isTrue h => isTrue (h ▸ rfl)
    | isFalse h => isFalse (by simp only [PyObj.dict.injEq]; exact h)
  | .null, .bool _ | .null, .int _ | .null, .str _ | .null, .list _
  | .null, .tuple _ | .null, .dict _
  | .bool _, .null | .bool _, .int _ | .bool _, .str _ | .bool _, .list _
  | .bool _, .tuple _ | .bool _, .dict _
  | .int _, .null | .int _, .bool _ | .int _, .str _ | .int _, .list _
  | .int _, .tuple _ | .int _, .dict _
  | .str _, .null | .str _, .bool _ | .str _, .int _ | .str _, .list _
  | .str _, .tuple _ | .str _, .dict _
  | .list _, .null | .list _, .bool _ | .list _, .int _ | .list _, .str _
  | .list _, .tuple _ | .list _, .dict _
  | .tuple _, .null | .tuple _, .bool _ | .tuple _, .int _ | .tuple _, .str _
  | .tuple _, .list _ | .tuple _, .dict _
  | .dict _, .null | .dict _, .bool _ | .dict _, .int _ | .dict _, .str _
  | .dict _, .list _ | .dict _, .tuple _ => isFalse (by intro h; exact PyObj.noConfusion h)

def PyObj.hasDecEqList : (a b : List PyObj) → Decidable (a = b)
  | [], [] => isTrue rfl
  | _ :: _, [] => isFalse (by intro h; exact List.noConfusion h)
  | [], _ :: _ => isFalse (by intro h; exact List.noConfusion h)
  | a :: as, b :: bs =>
    match PyObj.hasDecEq a b with
    | isFalse h => isFalse (by simp only [List.cons.injEq, not_and]; intro hab; exact absurd hab h)
    | isTrue h =>
      match PyObj.hasDecEqList as bs with
      | isFalse h2 => isFalse (fun hc => List.noConfusion hc (fun _ htl => absurd htl h2))
      | isTrue h2 => isTrue (h ▸ h2 ▸ rfl)

def PyObj.hasDecEqKVList : (a b : List (String × PyObj)) → Decidable (a = b)
  | [], [] => isTrue rfl
  | _ :: _, [] => isFalse (by intro h; exact List.noConfusion h)
  | [], _ :: _ => isFalse (by intro h; exact List.noConfusion h)
  | (ka, va) :: as, (kb, vb) :: bs =>
    match decEq ka kb with
    | isFalse h => isFalse (by
        simp only [List.cons.injEq, Prod.mk.injEq, not_and]
        intro hp _; exact absurd hp.1 h)
    | isTrue hk =>
      match PyObj.hasDecEq va vb with
      | isFalse h => isFalse (by
          simp only [List.cons.injEq, Prod.mk.injEq, not_and]
          intro hp _; exact absurd hp.2 h)
      | isTrue hv =>
        match PyObj.hasDecEqKVList as bs with
        | isFalse h2 => isFalse (fun hc => List.noConfusion hc (fun _ htl => absurd htl h2))
        | isTrue h2 => isTrue (hk ▸ hv ▸ h2 ▸ rfl)

end

instance : DecidableEq PyObj := PyObj.hasDecEq

instance {ε α : Type} [DecidableEq ε] [DecidableEq α] : DecidableEq (Except ε α) := fun a b =>
  match a, b with
  | .ok x, .ok y =>
    match decEq x y with
    | isTrue h => isTrue (h ▸ rfl)
    | isFalse h => isFalse (by simp only [Except.ok.injEq]; exact h)
  | .error x, .error y =>
    match decEq x y with
    | isTrue h => isTrue (h ▸ rfl)
    | isFalse h => isFalse (by simp only [Except.error.injEq]; exact h)
  | .ok _, .error _ => isFalse (by intro h; exact Except.noConfusion h)
  | .error _, .ok _ => isFalse (by intro h; exact Except.noConfusion h)

namespace PyObj

/-- Python truthiness of the modelled values. -/
def truthy : PyObj → Bool
  | .null => false
  | .bool b => b
  | .int n => n != 0
  | .str s => s != ""
  | .list l => !l.isEmpty
  | .tuple l => !l.isEmpty
  | .dict l => !l.isEmpty

/-- First value bound to `k` in an association list (Python dicts keep
insertion order and hold each key once; on such lists this is the lookup). -/
def alookup (k : String) : List (String × PyObj) → Option PyObj
  | [] => none
  | (k2, v) :: rest => if k2 = k then some v else alookup k rest

/-- `d[k]` for a string key: `KeyError` when the key is missing, `TypeError`
when the receiver is not subscriptable by strings. -/
def getItem (o : PyObj) (k : String) : Except PyErr PyObj :=
  match o with
  | .dict l =>
      match alookup k l with
      | some v => .ok v
      | none => .error (.keyError k)
  | .null => .error (.typeError "NoneType object is not subscriptable")
  | .list _ => .error (.typeError "list indices must be integers or slices, not str")
  | .tuple _ => .error (.typeError "tuple indices must be integers or slices, not str")
  | .str _ => .error (.typeError "string indices must be integers")
  | _ => .error (.typeError "object is not subscriptable")

/-- `x[i]` for an integer index (only tuples and lists are indexed this way
in the embedded code). -/
def index (o : PyObj) (i : Nat) : Except PyErr PyObj :=
  match o with
  | .tuple l =>
      match l.get? i with
      | some v => .ok v
      | none => .error (.indexError "tuple index out of range")
  | .list l =>
      match l.get? i with
      | some v => .ok v
      | none => .error (.indexError "list index out of range")
  | .null => .error (.typeError "NoneType object is not subscriptable")
  | _ => .error (.typeError "object is not subscriptable")

/-- `d.get(k, default)`: `AttributeError` when the receiver is not a dict. -/
def dictGet (o : PyObj) (k : String) (default : PyObj) : Except PyErr PyObj :=
  match o with
  | .dict l =>
      match alookup k l with
      | some v => .ok v
      | none => .ok default
  | .null => .error (.attributeError "NoneType object has no attribute get")
  | _ => .error (.attributeError "object has no attribute get")

/-- `d.items()`: `AttributeError` when the receiver is not a dict. -/
def items (o : PyObj) : Except PyErr (List (String × PyObj)) :=
  match o with
  | .dict l => .ok l
  | .null => .error (.attributeError "NoneType object has no attribute items")
  | _ => .error (.attributeError "object has no attribute items")

/-- `k in o` for a string `k`: key membership on dicts, element membership on
lists and tuples, `TypeError` otherwise (substring search on strings is not
needed by the embedded call sites, which only apply `in` to the properties
dict). -/
def containsStr (o : PyObj) (k : String) : Except PyErr Bool :=
  match o with
  | .dict l => .ok ((alookup k l).isSome)
  | .list l => .ok (l.contains (.str k))
  | .tuple l => .ok (l.contains (.str k))
  | .null => .error (.typeError "argument of type NoneType is not iterable")
  | _ => .error (.typeError "argument is not a container")

/-- `for m in o`: lists and tuples yield their elements, dicts their keys,
anything else raises `TypeError`. -/
def iterate (o : PyObj) : Except PyErr (List PyObj) :=
  match o with
  | .list l => .ok l
  | .tuple l => .ok l
  | .dict l => .ok (l.map (fun p => .str p.1))
  | .null => .error (.typeError "NoneType object is not iterable")
  | _ => .error (.typeError "object is not iterable")

/-- `a or b` (short-circuiting disjunction returning an operand). -/
def pyOr (a b : PyObj) : PyObj :=
  if a.truthy then a else b

/-- `a + b`: integer addition, string and sequence concatenation, `TypeError`
otherwise. -/
def pyAdd (a b : PyObj) : Except PyErr PyObj :=
  match a, b with
  | .int m, .int n => .ok (.int (m + n))
  | .str s, .str t => .ok (.str (s ++ t))
  | .list s, .list t => .ok (.list (s ++ t))
  | .tuple s, .tuple t => .ok (.tuple (s ++ t))
  | _, _ => .error (.typeError "unsupported operand types for +")

end PyObj

/-! ## `datetime.datetime.strptime` for the four formats of `parse_datetime`

The four format strings of `utils.parse_datetime` are
`"%Y-%m-%dT%H:%M:%S.%f%z"`, `"%Y-%m-%dT%H:%M:%S%z"`,
`"%Y-%m-%dT%H:%M:%S.%fZ"` and `"%Y-%m-%dT%H:%M:%SZ"`.  Each directive is
modelled after the regular expression CPython's `_strptime.TimeRE` assigns
to it (`%Y` exactly four digits, `%m`/`%d`/`%H`/`%M`/`%S` one or two digits
within the directive's range, `%f` one to six digits padded to microseconds,
`%z` a case-sensitive literal `Z` or a signed offset with optional colons,
optional seconds and an optional fraction), followed by the post-processing
of `_strptime` (the colon-consistency check on the offset) and the range
checks the `datetime` constructor performs (calendar-valid date, second at
most 59, offset strictly inside a day).  CPython compiles the whole format
regex with `re.IGNORECASE`, so literal characters of the format (`T` and
the trailing `Z` of the last two formats) match either case.  The whole
string must be consumed. -/

/-- A parsed `datetime.datetime` value.  `tz` is the UTC offset in
microseconds when the value is timezone-aware and `none` when it is
naive. -/
structure PyDateTime where
  year : Nat
  month : Nat
  day : Nat
  hour : Nat
  minute : Nat
  second : Nat
  microsecond : Nat
  tz : Option Int
  deriving Repr, DecidableEq

/-- The `%Y-%m-%dT%H:%M:%S` fields shared by all four formats. -/
structure DateFields where
  year : Nat
  month : Nat
  day : Nat
  hour : Nat
  minute : Nat
  second : Nat
  deriving Repr, DecidableEq

/-- Numeric value of a decimal digit character. -/
def digitVal (c : Char) : Nat := c.toNat - 48

/-- `%Y`: exactly four decimal digits. -/
def parseYear4 : List Char → Option (Nat × List Char)
  | a :: b :: c :: d :: rest =>
      if a.isDigit && b.isDigit && c.isDigit && d.isDigit then
        some (1000 * digitVal a + 100 * digitVal b + 10 * digitVal c + digitVal d, rest)
      else none
  | _ => none

/-- A directive matching one or two digits: the two-digit alternatives are
tried first (as in the `TimeRE` regular expressions, whose two-digit
branches precede the one-digit branch; in the four formats every directive
is followed by a non-digit, so committing to two digits never loses a
match the one-digit branch would have found). -/
def twoDigitAlt (valid2 : Char → Char → Bool) (valid1 : Char → Bool) :
    List Char → Option (Nat × List Char)
  | c1 :: c2 :: rest =>
      if valid2 c1 c2 then some (10 * digitVal c1 + digitVal c2, rest)
      else if valid1 c1 then some (digitVal c1, c2 :: rest)
      else none
  | [c1] => if valid1 c1 then some (digitVal c1, []) else none
  | [] => none

/-- `%m`: `1[0-2]|0[1-9]|[1-9]`. -/
def parseMonth2 : List Char → Option (Nat × List Char) :=
  twoDigitAlt
    (fun c1 c2 => (c1 = '1' && '0' ≤ c2 && c2 ≤ '2') || (c1 = '0' && '1' ≤ c2 && c2 ≤ '9'))
    (fun c => '1' ≤ c && c ≤ '9')

/-- `%d`: `3[01]|[12]\d|0[1-9]|[1-9]`. -/
def parseDay2 : List Char → Option (Nat × List Char) :=
  twoDigitAlt
    (fun c1 c2 =>
      (c1 = '3' && '0' ≤ c2 && c2 ≤ '1') ||
      (('1' ≤ c1 && c1 ≤ '2') && c2.isDigit) ||
      (c1 = '0' && '1' ≤ c2 && c2 ≤ '9'))
    (fun c => '1' ≤ c && c ≤ '9')

/-- `%H`: `2[0-3]|[0-1]\d|\d`. -/
def parseHour2 : List Char → Option (Nat × List Char) :=
  twoDigitAlt
    (fun c1 c2 => (c1 = '2' && '0' ≤ c2 && c2 ≤ '3') || (('0' ≤ c1 && c1 ≤ '1') && c2.isDigit))
    Char.isDigit

/-- `%M`: `[0-5]\d|\d`. -/
def parseMinute2 : List Char → Option (Nat × List Char) :=
  twoDigitAlt
    (fun c1 c2 => ('0' ≤ c1 && c1 ≤ '5') && c2.isDigit)
    Char.isDigit

/-- `%S`: `6[0-1]|[0-5]\d|\d` (leap seconds pass the match and are rejected
by the `datetime` constructor afterwards). -/
def parseSecond2 : List Char → Option (Nat × List Char) :=
  twoDigitAlt
    (fun c1 c2 => (c1 = '6' && '0' ≤ c2 && c2 ≤ '1') || (('0' ≤ c1 && c1 ≤ '5') && c2.isDigit))
    Char.isDigit

/-- A literal character of the format string.  The format regex is
compiled with `re.IGNORECASE`, so a literal letter matches either case
(for the non-letters `-`, `:` and `.` this is plain equality). -/
def expectCharCI (c : Char) : List Char → Option (List Char)
  | c2 :: rest => if c2.toLower = c.toLower then some rest else none
  | [] => none

/-- `%f`: one to six digits, taken greedily, padded on the right to a
microsecond count. -/
def parseFrac (cs : List Char) : Option (Nat × List Char) :=
  let digits := (cs.takeWhile Char.isDigit).take 6
  let rest := cs.drop digits.length
  if digits.isEmpty then none
  else some (digits.foldl (fun acc c => 10 * acc + digitVal c) 0 * 10 ^ (6 - digits.length), rest)

/-- The seconds part of a `%z` offset: two digits below 60 and an optional
fraction of one to six digits (`_strptime` pads the fraction on the right
to microseconds, exactly as `%f` does).  Returns seconds, microseconds and
the remaining input. -/
def parseOffsetSeconds : List Char → Option (Nat × Nat × List Char)
  | s1 :: s2 :: rest =>
      if ('0' ≤ s1 && s1 ≤ '5') && s2.isDigit then
        let ss := 10 * digitVal s1 + digitVal s2
        match rest with
        | '.' :: rest2 =>
            match parseFrac rest2 with
            | some (usec, rest3) => some (ss, usec, rest3)
            | none => none
        | _ => some (ss, 0, rest)
      else none
  | _ => none

/-- `%z`: a literal uppercase `Z` (UTC; this alternative is `(?-i:Z)` in
the CPython regex, so a lowercase `z` is rejected even under
`IGNORECASE`), or a sign, a two-digit hour, a two-digit minute below 60
and an optional seconds part with an optional fraction, with the colons
used consistently (`_strptime` raises on a mixed form, which the caller
observes as a format failure; here a mixed or malformed tail is left
unconsumed, and the format's end-of-input requirement rejects it).
Returns the offset in microseconds and the remaining input. -/
def parseZOffset : List Char → Option (Int × List Char)
  | 'Z' :: rest => some (0, rest)
  | s :: h1 :: h2 :: rest =>
      if (s = '+' || s = '-') && h1.isDigit && h2.isDigit then
        let hh := 10 * digitVal h1 + digitVal h2
        let sign : Int := if s = '-' then -1 else 1
        match rest with
        | ':' :: m1 :: m2 :: rest2 =>
            if ('0' ≤ m1 && m1 ≤ '5') && m2.isDigit then
              let mm := 10 * digitVal m1 + digitVal m2
              match rest2 with
              | ':' :: rest3 =>
                  match parseOffsetSeconds rest3 with
                  | some (ss, usec, rest4) =>
                      some (sign * ((3600 * hh + 60 * mm + ss) * 1000000 + usec), rest4)
                  | none => none
              | _ => some (sign * ((3600 * hh + 60 * mm) * 1000000), rest2)
            else none
        | m1 :: m2 :: rest2 =>
            if ('0' ≤ m1 && m1 ≤ '5') && m2.isDigit then
              let mm := 10 * digitVal m1 + digitVal m2
              match rest2 with
              | ':' :: _ => some (sign * ((3600 * hh + 60 * mm) * 1000000), rest2)
              | _ =>
                  match parseOffsetSeconds rest2 with
                  | some (ss, usec, rest3) =>
                      some (sign * ((3600 * hh + 60 * mm + ss) * 1000000 + usec), rest3)
                  | none => some (sign * ((3600 * hh + 60 * mm) * 1000000), rest2)
            else none
        | _ => none
      else none
  | _ => none

/-- The common `%Y-%m-%dT%H:%M:%S` prefix of all four formats (the `T`
literal matches either case under `IGNORECASE`). -/
def parseCommonPrefix (cs : List Char) : Option (DateFields × List Char) := do
  let (y, cs) ← parseYear4 cs
  let cs ← expectCharCI '-' cs
  let (mo, cs) ← parseMonth2 cs
  let cs ← expectCharCI '-' cs
  let (d, cs) ← parseDay2 cs
  let cs ← expectCharCI 'T' cs
  let (h, cs) ← parseHour2 cs
  let cs ← expectCharCI ':' cs
  let (mi, cs) ← parseMinute2 cs
  let cs ← expectCharCI ':' cs
  let (s, cs) ← parseSecond2 cs
  pure (⟨y, mo, d, h, mi, s⟩, cs)

/-- Gregorian leap year (as `calendar.isleap` / `datetime` use it). -/
def isLeapYear (y : Nat) : Bool :=
  y % 4 = 0 && (y % 100 ≠ 0 || y % 400 = 0)

/-- Length of a month, as validated by the `datetime.date` constructor. -/
def daysInMonth (y m : Nat) : Nat :=
  if m = 2 then (if isLeapYear y then 29 else 28)
  else if m = 4 || m = 6 || m = 9 || m = 11 then 30
  else 31

/-- The range checks of the `datetime.datetime` constructor. -/
def fieldsOk (f : DateFields) : Bool :=
  1 ≤ f.year && f.year ≤ 9999 &&
  1 ≤ f.month && f.month ≤ 12 &&
  1 ≤ f.day && f.day ≤ daysInMonth f.year f.month &&
  f.hour ≤ 23 && f.minute ≤ 59 && f.second ≤ 59

/-- The range check of `datetime.timezone` on a fixed offset (in
microseconds): strictly between minus one day and one day. -/
def tzOk : Option Int → Bool
  | none => true
  | some off => off.natAbs < 86400000000

/-- Building the `datetime.datetime` out of the matched fields; `none`
models the `ValueError` of the constructor on out-of-range fields, which
`parse_datetime` catches like a match failure. -/
def mkDateTime (f : DateFields) (usec : Nat) (tz : Option Int) : Option PyDateTime :=
  if fieldsOk f && usec ≤ 999999 && tzOk tz then
    some ⟨f.year, f.month, f.day, f.hour, f.minute, f.second, usec, tz⟩
  else none

/-- `strptime` with `"%Y-%m-%dT%H:%M:%S.%f%z"`. -/
def strptimeFracOffset (s : String) : Option PyDateTime :=
  match parseCommonPrefix s.data with
  | none => none
  | some (f, rest) =>
    match expectCharCI '.' rest with
    | none => none
    | some rest =>
      match parseFrac rest with
      | none => none
      | some (usec, rest) =>
        match parseZOffset rest with
        | some (off, []) => mkDateTime f usec (some off)
        | _ => none

/-- `strptime` with `"%Y-%m-%dT%H:%M:%S%z"`. -/
def strptimeOffset (s : String) : Option PyDateTime :=
  match parseCommonPrefix s.data with
  | none => none
  | some (f, rest) =>
    match parseZOffset rest with
    | some (off, []) => mkDateTime f 0 (some off)
    | _ => none

/-- `strptime` with `"%Y-%m-%dT%H:%M:%S.%fZ"`; the trailing `Z` is a
format literal, matched case-insensitively, and the result is naive (no
`%z` directive, and the `sys.version_info < (3, 7)` fix-up of
`parse_datetime` is dead code on current interpreters). -/
def strptimeFracZ (s : String) : Option PyDateTime :=
  match parseCommonPrefix s.data with
  | none => none
  | some (f, rest) =>
    match expectCharCI '.' rest with
    | none => none
    | some rest =>
      match parseFrac rest with
      | none => none
      | some (usec, rest) =>
        match expectCharCI 'Z' rest with
        | some [] => mkDateTime f usec none
        | _ => none

/-- `strptime` with `"%Y-%m-%dT%H:%M:%SZ"`; the trailing `Z` is a format
literal, matched case-insensitively, and the result is naive. -/
def strptimeZ (s : String) : Option PyDateTime :=
  match parseCommonPrefix s.data with
  | none => none
  | some (f, rest) =>
    match expectCharCI 'Z' rest with
    | some [] => mkDateTime f 0 none
    | _ => none

/-- The `for date_format in date_formats` loop of `parse_datetime`: the
first format that parses wins. -/
def firstParse (s : String) : Option PyDateTime :=
  match strptimeFracOffset s with
  | some d => some d
  | none =>
    match strptimeOffset s with
    | some d => some d
    | none =>
      match strptimeFracZ s with
      | some d => some d
      | none => strptimeZ s

/-- `utils.parse_datetime`.  The argument is `none` for Python `None`;
falsy inputs short-circuit to `None`, otherwise the four formats are tried
in order and a failed loop yields `None`. -/
def parse_datetime (date_str : Option String) : Option PyDateTime :=
  match date_str with
  | none => none
  | some s => if s = "" then none else firstParse s

/-- Companion to `parse_datetime`: whether the `_LOGGER.error` line after
the loop is reached (the function fell through every format on a truthy
input). -/
def parse_datetime_logs_error (date_str : Option String) : Bool :=
  match date_str with
  | none => false
  | some s => if s = "" then false else (firstParse s).isNone

/-! ## Enumerations of `vehicle_status.py`

Python `Enum(value)` lookups are fallible constructors: an unrecognized
value raises `ValueError` (an unhashable value such as a dict or list
raises `TypeError` before the lookup). -/

/-- `LidState`: possible states of the hatch, trunk, doors, windows,
sun roof. -/
inductive LidState where
  | CLOSED
  | OPEN
  | OPEN_TILT
  | INTERMEDIATE
  | INVALID
  deriving Repr, DecidableEq

/-- The raw codes of `LidState`. -/
def LidState.codes : List String :=
  ["CLOSED", "OPEN", "OPEN_TILT", "INTERMEDIATE", "INVALID"]

/-- `LidState(value)` on a string. -/
def LidState.ofValue (s : String) : Except PyErr LidState :=
  if s = "CLOSED" then .ok .CLOSED
  else if s = "OPEN" then .ok .OPEN
  else if s = "OPEN_TILT" then .ok .OPEN_TILT
  else if s = "INTERMEDIATE" then .ok .INTERMEDIATE
  else if s = "INVALID" then .ok .INVALID
  else .error (.valueError "is not a valid LidState")

/-- The `.value` attribute of a `LidState` member. -/
def LidState.value : LidState → String
  | .CLOSED => "CLOSED"
  | .OPEN => "OPEN"
  | .OPEN_TILT => "OPEN_TILT"
  | .INTERMEDIATE => "INTERMEDIATE"
  | .INVALID => "INVALID"

/-- `LockState`: possible states of the door locks. -/
inductive LockState where
  | LOCKED
  | SECURED
  | SELECTIVE_LOCKED
  | UNLOCKED
  | UNKNOWN
  deriving Repr, DecidableEq

/-- The raw codes of `LockState`. -/
def LockState.codes : List String :=
  ["LOCKED", "SECURED", "SELECTIVE_LOCKED", "UNLOCKED", "UNKNOWN"]

/-- `LockState(value)` on a string. -/
def LockState.ofValue (s : String) : Except PyErr LockState :=
  if s = "LOCKED" then .ok .LOCKED
  else if s = "SECURED" then .ok .SECURED
  else if s = "SELECTIVE_LOCKED" then .ok .SELECTIVE_LOCKED
  else if s = "UNLOCKED" then .ok .UNLOCKED
  else if s = "UNKNOWN" then .ok .UNKNOWN
  else .error (.valueError "is not a valid LockState")

/-- `ConditionBasedServiceStatus`: status of the condition based
services. -/
inductive ConditionBasedServiceStatus where
  | OK
  | OVERDUE
  | PENDING
  deriving Repr, DecidableEq

/-- The raw codes of `ConditionBasedServiceStatus`. -/
def ConditionBasedServiceStatus.codes : List String :=
  ["OK", "OVERDUE", "PENDING"]

/-- `ConditionBasedServiceStatus(value)` on a string. -/
def ConditionBasedServiceStatus.ofValue (s : String) : Except PyErr ConditionBasedServiceStatus :=
  if s = "OK" then .ok .OK
  else if s = "OVERDUE" then .ok .OVERDUE
  else if s = "PENDING" then .ok .PENDING
  else .error (.valueError "is not a valid ConditionBasedServiceStatus")

/-- `ConditionBasedServiceStatus(value)` on an arbitrary object: strings go
through the value lookup, unhashable containers raise `TypeError`, every
other value raises `ValueError`. -/
def ConditionBasedServiceStatus.ofObj : PyObj → Except PyErr ConditionBasedServiceStatus
  | .str s => ConditionBasedServiceStatus.ofValue s
  | .dict _ => .error (.typeError "unhashable type dict")
  | .list _ => .error (.typeError "unhashable type list")
  | _ => .error (.valueError "is not a valid ConditionBasedServiceStatus")

/-! ## Entity classes -/

/-- A lid of the vehicle (door, trunk, hatch).  The constructor of the
Python class stores the name and runs the fallible `LidState(state)`
lookup, so building a `Lid` is itself fallible. -/
structure Lid where
  name : String
  state : LidState
  deriving Repr, DecidableEq

/-- `Lid.__init__`: stores the name and maps the raw state through
`LidState`. -/
def Lid.init (name : String) (state : PyObj) : Except PyErr Lid :=
  match state with
  | .str s => (LidState.ofValue s).map (fun st => ⟨name, st⟩)
  | .dict _ => .error (.typeError "unhashable type dict")
  | .list _ => .error (.typeError "unhashable type list")
  | _ => .error (.valueError "is not a valid LidState")

/-- `Lid.is_closed`. -/
def Lid.is_closed (l : Lid) : Bool :=
  l.state = LidState.CLOSED

/-- `Window` is a `Lid` sourced from a different raw sub-collection, with
identical behaviour. -/
abbrev Window := Lid

/-- `Window.__init__` is inherited from `Lid`. -/
def Window.init (name : String) (state : PyObj) : Except PyErr Window :=
  Lid.init name state

/-- A check control message: a thin wrapper around the raw dict. -/
structure CheckControlMessage where
  ccm_dict : PyObj
  deriving Repr, DecidableEq

/-- `parse_datetime` applied to an arbitrary object (as the
`ConditionBasedServiceReport` constructor does): falsy inputs yield `None`
at the truthiness guard, truthy strings go through the format loop, and a
truthy non-string reaches `strptime`, which raises `TypeError`. -/
def parse_datetime_obj (j : PyObj) : Except PyErr (Option PyDateTime) :=
  if !j.truthy then .ok none
  else match j with
  | .str s => .ok (firstParse s)
  | _ => .error (.typeError "strptime argument must be str")

/-- An entry in the list of condition based services. -/
structure ConditionBasedServiceReport where
  due_date : Option PyDateTime
  state : ConditionBasedServiceStatus
  service_type : PyObj
  due_distance : Option (PyObj × PyObj)
  description : Option PyObj
  deriving Repr, DecidableEq

/-- `ConditionBasedServiceReport.__init__`: parses the optional due date,
runs the fallible status lookup, reads the mandatory type, and the optional
distance pair; the description is always absent. -/
def ConditionBasedServiceReport.init (cbs_data : PyObj) : Except PyErr ConditionBasedServiceReport := do
  let dtRaw ← cbs_data.dictGet "dateTime" .null
  let due_date ← parse_datetime_obj dtRaw
  let stRaw ← cbs_data.getItem "status"
  let st ← ConditionBasedServiceStatus.ofObj stRaw
  let ty ← cbs_data.getItem "type"
  let hasDist ← cbs_data.containsStr "distance"
  let dd ←
    if hasDist then do
      let d ← cbs_data.getItem "distance"
      let v ← d.getItem "value"
      let u ← d.getItem "units"
      pure (some (v, u))
    else pure none
  pure ⟨due_date, st, ty, dd, none⟩

/-! ## The `backend_parameter` decorator and the `VehicleStatus` class -/

/-- The `try`/`except` part of the `backend_parameter` decorator: a
`KeyError` raised by the wrapped body is converted to the Python `None` of
the property's value type (`noneVal`); every other exception is re-raised
unchanged. -/
def keyErrorToNone {α : Type} (noneVal : α) (body : Except PyErr α) : Except PyErr α :=
  match body with
  | .error (.keyError _) => .ok noneVal
  | r => r

/-- The `backend_parameter` decorator.  Guard first: `ValueError` when
`self.properties is None and self.status` holds; otherwise the wrapped
body runs under the `KeyError` handler. -/
def backend_parameter {α : Type} (noneVal : α) (properties status : PyObj)
    (body : Except PyErr α) : Except PyErr α :=
  if properties = PyObj.null ∧ status.truthy then
    .error (.valueError "No data available for vehicle status!")
  else keyErrorToNone noneVal body

/-- Companion to `backend_parameter`: whether the `_LOGGER.debug` line in
the `except KeyError` branch is reached. -/
def backend_parameter_logs_debug {α : Type} (properties status : PyObj)
    (body : Except PyErr α) : Bool :=
  if properties = PyObj.null ∧ status.truthy then false
  else
    match body with
    | .error (.keyError _) => true
    | _ => false

/-- The status and properties raw mappings stored by
`VehicleStatus.__init__`. -/
structure VehicleStatus where
  status : PyObj
  properties : PyObj
  deriving Repr, DecidableEq

/-- `VehicleStatus.__init__`: reads the two containers out of the state
dict (`KeyError` on a malformed state dict). -/
def VehicleStatus.init (state : PyObj) : Except PyErr VehicleStatus := do
  let st ← state.getItem "status"
  let pr ← state.getItem "properties"
  pure ⟨st, pr⟩

/-- Body of `VehicleStatus.remaining_range_fuel`: `(None, None)` when the
`combustionRange` sub-object is absent, otherwise the
`distance.value` / `distance.units` pair (the Python body evaluates the
same pure lookups once per tuple slot; they are read once here). -/
def remaining_range_fuel_body (vs : VehicleStatus) : Except PyErr PyObj := do
  let present ← vs.properties.containsStr "combustionRange"
  if !present then
    pure (.tuple [.null, .null])
  else do
    let cr ← vs.properties.getItem "combustionRange"
    let d ← cr.getItem "distance"
    let v ← d.getItem "value"
    let u ← d.getItem "units"
    pure (.tuple [v, u])

/-- `VehicleStatus.remaining_range_fuel` (decorated). -/
def VehicleStatus.remaining_range_fuel (vs : VehicleStatus) : Except PyErr PyObj :=
  backend_parameter .null vs.properties vs.status (remaining_range_fuel_body vs)

/-- Body of `VehicleStatus.remaining_range_electric`: same shape as the
fuel property, over the `electricRange` sub-object. -/
def remaining_range_electric_body (vs : VehicleStatus) : Except PyErr PyObj := do
  let present ← vs.properties.containsStr "electricRange"
  if !present then
    pure (.tuple [.null, .null])
  else do
    let er ← vs.properties.getItem "electricRange"
    let d ← er.getItem "distance"
    let v ← d.getItem "value"
    let u ← d.getItem "units"
    pure (.tuple [v, u])

/-- `VehicleStatus.remaining_range_electric` (decorated). -/
def VehicleStatus.remaining_range_electric (vs : VehicleStatus) : Except PyErr PyObj :=
  backend_parameter .null vs.properties vs.status (remaining_range_electric_body vs)

/-- Body of `VehicleStatus.remaining_range_total`: reads the two decorated
range properties (pure, so each is read once), and combines them with the
truthiness-driven `or` chains of the source. -/
def remaining_range_total_body (vs : VehicleStatus) : Except PyErr PyObj := do
  let fuel ← vs.remaining_range_fuel
  let elec ← vs.remaining_range_electric
  if !fuel.truthy && !elec.truthy then
    pure (.tuple [.null, .null])
  else do
    let f0 ← (fuel.pyOr (.list [.int 0])).index 0
    let e0 ← (elec.pyOr (.list [.int 0])).index 0
    let v ← PyObj.pyAdd (f0.pyOr (.int 0)) (e0.pyOr (.int 0))
    let u ← (fuel.pyOr elec).index 1
    pure (.tuple [v, u])

/-- `VehicleStatus.remaining_range_total` (decorated). -/
def VehicleStatus.remaining_range_total (vs : VehicleStatus) : Except PyErr PyObj :=
  backend_parameter .null vs.properties vs.status (remaining_range_total_body vs)

/-- Body of `VehicleStatus.lids`: the hood/trunk entries of the
`doorsAndWindows` mapping plus all entries of its nested `doors` mapping,
in insertion order, skipping entries whose raw state equals the
`INVALID` sentinel.  The comprehension filter is pure, so filtering before
constructing the `Lid` objects raises the same first error as the
interleaved Python comprehension. -/
def lids_body (vs : VehicleStatus) : Except PyErr (List Lid) := do
  let lids ← vs.properties.getItem "doorsAndWindows"
  let entries ← lids.items
  let fixed ← (entries.filter
      (fun p => (p.1 = "hood" || p.1 = "trunk") && p.2 ≠ PyObj.str "INVALID")).mapM
    (fun p => Lid.init p.1 p.2)
  let doorsObj ← lids.getItem "doors"
  let doorEntries ← doorsObj.items
  let doors ← (doorEntries.filter (fun p => p.2 ≠ PyObj.str "INVALID")).mapM
    (fun p => Lid.init p.1 p.2)
  pure (fixed ++ doors)

/-- `VehicleStatus.lids` (decorated); `none` is the Python `None` the
decorator substitutes on `KeyError`. -/
def VehicleStatus.lids (vs : VehicleStatus) : Except PyErr (Option (List Lid)) :=
  backend_parameter none vs.properties vs.status ((lids_body vs).map some)

/-- `VehicleStatus.open_lids` (not decorated): iterates over the decorated
`lids` property; when that property returned `None`, iterating it raises
`TypeError`. -/
def VehicleStatus.open_lids (vs : VehicleStatus) : Except PyErr (List Lid) := do
  match ← vs.lids with
  | none => .error (.typeError "NoneType object is not iterable")
  | some ls => pure (ls.filter (fun l => !l.is_closed))

/-- `VehicleStatus.all_lids_closed` (not decorated). -/
def VehicleStatus.all_lids_closed (vs : VehicleStatus) : Except PyErr Bool := do
  let ol ← vs.open_lids
  pure (ol.length = 0)

/-- Body of `VehicleStatus.windows`: all entries of the `windows`
sub-collection of `doorsAndWindows`, read with `.get` (so a missing
`windows` key yields `None`, whose `.items()` raises `AttributeError`),
skipping `INVALID` entries. -/
def windows_body (vs : VehicleStatus) : Except PyErr (List Window) := do
  let dw ← vs.properties.getItem "doorsAndWindows"
  let w ← dw.dictGet "windows" .null
  let entries ← w.items
  (entries.filter (fun p => p.2 ≠ PyObj.str "INVALID")).mapM
    (fun p => Window.init p.1 p.2)

/-- `VehicleStatus.windows` (decorated). -/
def VehicleStatus.windows (vs : VehicleStatus) : Except PyErr (Option (List Window)) :=
  backend_parameter none vs.properties vs.status ((windows_body vs).map some)

/-- Python `str.upper`, applied characterwise (the lock-state codes this is
applied to are ASCII, where `Char.toUpper` agrees with Python). -/
def pyUpper (s : String) : String :=
  ⟨s.data.map Char.toUpper⟩

/-- Body of `VehicleStatus.door_lock_state`:
`LockState(self.status['doorsGeneralState'].upper())`. -/
def door_lock_state_body (vs : VehicleStatus) : Except PyErr LockState := do
  let raw ← vs.status.getItem "doorsGeneralState"
  match raw with
  | .str s => LockState.ofValue (pyUpper s)
  | _ => .error (.attributeError "object has no attribute upper")

/-- `VehicleStatus.door_lock_state` (decorated). -/
def VehicleStatus.door_lock_state (vs : VehicleStatus) : Except PyErr (Option LockState) :=
  backend_parameter none vs.properties vs.status ((door_lock_state_body vs).map some)

/-- The comprehension filter of `check_control_messages`: keeps the raw
entries whose `state` item differs from `"OK"`, reading each entry's
`state` in order (a missing key raises `KeyError` at that entry). -/
def keepStateNotOK : List PyObj → Except PyErr (List PyObj)
  | [] => .ok []
  | m :: rest => do
      let st ← m.getItem "state"
      let tail ← keepStateNotOK rest
      if st ≠ PyObj.str "OK" then pure (m :: tail) else pure tail

/-- Body of `VehicleStatus.check_control_messages`: the raw list is read
with `.get(…, [])`, then filtered and wrapped. -/
def check_control_messages_body (vs : VehicleStatus) : Except PyErr (List CheckControlMessage) := do
  let messages ← vs.status.dictGet "checkControlMessages" (.list [])
  let ms ← messages.iterate
  let kept ← keepStateNotOK ms
  pure (kept.map (fun m => ⟨m⟩))

/-- `VehicleStatus.check_control_messages` (decorated). -/
def VehicleStatus.check_control_messages (vs : VehicleStatus) :
    Except PyErr (Option (List CheckControlMessage)) :=
  backend_parameter none vs.properties vs.status ((check_control_messages_body vs).map some)

/-- Body of `VehicleStatus.has_check_control_messages`: takes the length of
the decorated `check_control_messages` property (`TypeError` when that
property returned `None`). -/
def has_check_control_messages_body (vs : VehicleStatus) : Except PyErr Bool := do
  match ← vs.check_control_messages with
  | none => .error (.typeError "object of type NoneType has no len")
  | some l => pure (decide (0 < l.length))

/-- `VehicleStatus.has_check_control_messages` (decorated). -/
def VehicleStatus.has_check_control_messages (vs : VehicleStatus) : Except PyErr (Option Bool) :=
  backend_parameter none vs.properties vs.status ((has_check_control_messages_body vs).map some)

/-! ## Input families and observers used by the statements

The following definitions build concrete snapshots (they construct inputs;
they embed no code of the repository). -/

/-- The `{"distance": {"value": …, "units": …}}` sub-object of a range
property. -/
def rangeDistance (v : Int) (u : String) : PyObj :=
  .dict [("distance", .dict [("value", .int v), ("units", .str u)])]

/-- A properties mapping whose `combustionRange` / `electricRange`
sub-objects are present exactly when the corresponding optional
`(value, units)` argument is, next to arbitrary further entries. -/
def rangeProps (fuel elec : Option (Int × String)) (rest : List (String × PyObj)) : PyObj :=
  .dict ((match fuel with
          | some p => [("combustionRange", rangeDistance p.1 p.2)]
          | none => []) ++
         (match elec with
          | some p => [("electricRange", rangeDistance p.1 p.2)]
          | none => []) ++ rest)

/-- The raw entries of a lid collection with the given states. -/
def lidEntries (l : List (String × LidState)) : List (String × PyObj) :=
  l.map (fun p => (p.1, PyObj.str p.2.value))

/-- A `doorsAndWindows` mapping: fixed-name entries with lid-state strings,
the nested `doors` mapping, and arbitrary further entries. -/
def mkDoorsAndWindows (fixed doors : List (String × LidState))
    (rest : List (String × PyObj)) : PyObj :=
  .dict (lidEntries fixed ++ [("doors", .dict (lidEntries doors))] ++ rest)

/-- Whether a raw check-control entry has a `state` item different from
`"OK"` (the surfacing condition of `check_control_messages`). -/
def stateNotOK (m : PyObj) : Bool :=
  match m.getItem "state" with
  | .ok v => v != PyObj.str "OK"
  | .error _ => false

/-- Whether a property access failed with the decorator's
`No data available` error. -/
def raisesNoData {α : Type} : Except PyErr α → Bool
  | .error (.valueError m) => m = "No data available for vehicle status!"
  | _ => false

/-- A small status mapping as it appears in real snapshots. -/
def exampleStatus : PyObj :=
  .dict [("lastUpdatedAt", .str "2021-11-12T16:06:55Z")]

/-- A properties mapping with neither `combustionRange` nor
`electricRange`. -/
def propsWithoutRanges : PyObj :=
  .dict [("fuelLevel", .dict [("value", .int 27), ("units", .str "LITERS")])]

/-- A properties mapping with only an electric range of 500 km. -/
def propsElectricOnly : PyObj :=
  .dict [("electricRange", rangeDistance 500 "km")]

/-! ## Shared lemmas -/

@[simp] theorem Except.ok_bind {ε α β : Type} (a : α) (f : α → Except ε β) :
    (Except.ok a : Except ε α) >>= f = f a := rfl

@[simp] theorem Except.error_bind {ε α β : Type} (e : ε) (f : α → Except ε β) :
    (Except.error e : Except ε α) >>= f = Except.error e := rfl

@[simp] theorem Except.ok_map {ε α β : Type} (f : α → β) (a : α) :
    (Except.ok a : Except ε α).map f = Except.ok (f a) := rfl

@[simp] theorem Except.error_map {ε α β : Type} (f : α → β) (e : ε) :
    (Except.error e : Except ε α).map f = Except.error e := rfl

@[simp] theorem Except.pure_def {ε α : Type} (a : α) :
    (pure a : Except ε α) = Except.ok a := rfl

/-- Truthiness never holds of the first operand the `or` chains of
`remaining_range_total` see when a range property produced a pair, so the
pair always wins. -/
@[simp] theorem pyOr_tuple_two (a b d : PyObj) :
    (PyObj.tuple [a, b]).pyOr d = PyObj.tuple [a, b] := by
  simp [PyObj.pyOr, PyObj.truthy]

@[simp] theorem pyOr_null (b : PyObj) : PyObj.null.pyOr b = b := rfl

/-- The inner `x or 0` of the range sum is the identity on integers. -/
theorem pyOr_int_zero (n : Int) : PyObj.pyOr (.int n) (.int 0) = .int n := by
  by_cases h : n = 0 <;> simp [PyObj.pyOr, PyObj.truthy, h]

/-- Assoc-list lookup skips a prefix none of whose keys match. -/
theorem alookup_skip (k : String) (l1 l2 : List (String × PyObj))
    (h : ∀ p ∈ l1, p.1 ≠ k) :
    PyObj.alookup k (l1 ++ l2) = PyObj.alookup k l2 := by
  induction l1 with
  | nil => rfl
  | cons p rest ih =>
    have hp := h p (List.mem_cons_self p rest)
    simp [PyObj.alookup, hp, ih (fun q hq => h q (List.mem_cons_of_mem p hq))]

/-- Rebuilding a `Lid` from the raw string of its state succeeds and
returns the state itself. -/
theorem Lid.init_value (name : String) (st : LidState) :
    Lid.init name (.str st.value) = .ok ⟨name, st⟩ := by
  cases st <;> rfl

/-- Mapping `Lid.init` over filtered raw entries whose states are
enumeration codes never fails, and produces exactly the typed filter
(generalized over the `mapM` accumulator). -/
theorem mapM_loop_init (ptest : String × PyObj → Bool) (qtest : String × LidState → Bool)
    (hpq : ∀ k st, ptest (k, .str st.value) = qtest (k, st))
    (l : List (String × LidState)) (acc : List Lid) :
    List.mapM.loop (fun p => Lid.init p.1 p.2) ((lidEntries l).filter ptest) acc =
    .ok (acc.reverse ++ (l.filter qtest).map (fun p => (⟨p.1, p.2⟩ : Lid))) := by
  induction l generalizing acc with
  | nil => simp [lidEntries, List.mapM.loop]
  | cons p rest ih =>
    obtain ⟨k, st⟩ := p
    simp only [lidEntries] at ih ⊢
    simp only [List.map_cons, List.filter_cons]
    rw [hpq k st]
    cases hq : qtest (k, st)
    · simp [ih]
    · simp [List.mapM.loop, Lid.init_value, ih]

/-- The comprehension filter of `check_control_messages` agrees with the
pure filter `stateNotOK` whenever every entry carries a `state` item. -/
theorem keepStateNotOK_filter (msgs : List PyObj)
    (hm : ∀ m ∈ msgs, (m.getItem "state").isOk = true) :
    keepStateNotOK msgs = .ok (msgs.filter stateNotOK) := by
  induction msgs with
  | nil => rfl
  | cons m rest ih =>
    have hmem := hm m (List.mem_cons_self m rest)
    have htl := ih (fun x hx => hm x (List.mem_cons_of_mem m hx))
    cases hst : m.getItem "state" with
    | error e => rw [hst] at hmem; simp [Except.isOk, Except.toBool] at hmem
    | ok v =>
      by_cases hv : v = PyObj.str "OK"
      · simp [keepStateNotOK, hst, htl, stateNotOK, List.filter_cons, hv]
      · simp [keepStateNotOK, hst, htl, stateNotOK, List.filter_cons, hv]

/-- A range property of a `rangeProps` snapshot, combustion side: the pair
when present, `(None, None)` otherwise. -/
theorem remaining_range_fuel_family (fuel elec : Option (Int × String))
    (rest : List (String × PyObj)) (status : PyObj)
    (h1 : PyObj.alookup "combustionRange" rest = none) :
    VehicleStatus.remaining_range_fuel ⟨status, rangeProps fuel elec rest⟩ =
      .ok (match fuel with
           | some p => .tuple [.int p.1, .str p.2]
           | none => .tuple [.null, .null]) := by
  rcases fuel with _ | ⟨vf, uf⟩ <;> rcases elec with _ | ⟨ve, ue⟩ <;>
    simp [VehicleStatus.remaining_range_fuel, backend_parameter, remaining_range_fuel_body,
      rangeProps, rangeDistance, PyObj.containsStr, PyObj.alookup, PyObj.getItem, h1,
      keyErrorToNone, PyObj.truthy]

/-- A range property of a `rangeProps` snapshot, electric side. -/
theorem remaining_range_electric_family (fuel elec : Option (Int × String))
    (rest : List (String × PyObj)) (status : PyObj)
    (h2 : PyObj.alookup "electricRange" rest = none) :
    VehicleStatus.remaining_range_electric ⟨status, rangeProps fuel elec rest⟩ =
      .ok (match elec with
           | some p => .tuple [.int p.1, .str p.2]
           | none => .tuple [.null, .null]) := by
  rcases fuel with _ | ⟨vf, uf⟩ <;> rcases elec with _ | ⟨ve, ue⟩ <;>
    simp [VehicleStatus.remaining_range_electric, backend_parameter, remaining_range_electric_body,
      rangeProps, rangeDistance, PyObj.containsStr, PyObj.alookup, PyObj.getItem, h2,
      keyErrorToNone, PyObj.truthy]

/-! ## Claims -/

/-- C1 (counterexample): the frozen claim says that when both the
`combustionRange` and `electricRange` sub-objects are absent the aggregate
is itself absent, and that the unit comes from whichever single component
is present.  On the code, a snapshot with neither sub-object yields the
pair `(0, None)` (the per-component `(None, None)` pairs are truthy
tuples, so the absence guard does not fire), and a snapshot with only an
electric range of `(500, "km")` yields `(500, None)`: the unit is read
from the truthy fuel pair `(None, None)`, not from the electric pair. -/
theorem remaining_range_total_not_absent_when_both_missing :
    VehicleStatus.remaining_range_total ⟨exampleStatus, propsWithoutRanges⟩ =
      .ok (.tuple [.int 0, .null]) ∧
    VehicleStatus.remaining_range_total ⟨exampleStatus, propsWithoutRanges⟩ ≠ .ok .null ∧
    VehicleStatus.remaining_range_total ⟨exampleStatus, propsWithoutRanges⟩ ≠
      .ok (.tuple [.null, .null]) ∧
    VehicleStatus.remaining_range_total ⟨exampleStatus, propsElectricOnly⟩ =
      .ok (.tuple [.int 500, .null]) ∧
    VehicleStatus.remaining_range_total ⟨exampleStatus, propsElectricOnly⟩ ≠
      .ok (.tuple [.int 500, .str "km"]) :=
  ⟨rfl, by decide, by decide, rfl, by decide⟩

/-- C1 (amended): over every snapshot whose `combustionRange` /
`electricRange` sub-objects, when present, carry an integer
`distance.value` and a string `distance.units` (and whose other properties
entries use neither key), `remaining_range_total` returns the pair whose
numeric part is the sum of the range values with an absent component
treated as zero, and whose unit part is always taken from the fuel pair:
the fuel unit when `combustionRange` is present, and `None` otherwise
(even when the electric component is present); in particular, when both
sub-objects are absent the result is the pair `(0, None)`, not an absent
value. -/
theorem remaining_range_total_spec (fuel elec : Option (Int × String))
    (rest : List (String × PyObj)) (status : PyObj)
    (h1 : PyObj.alookup "combustionRange" rest = none)
    (h2 : PyObj.alookup "electricRange" rest = none) :
    VehicleStatus.remaining_range_total ⟨status, rangeProps fuel elec rest⟩ =
      .ok (.tuple [.int ((fuel.map Prod.fst).getD 0 + (elec.map Prod.fst).getD 0),
                   match fuel with | some p => .str p.2 | none => .null]) := by
  have hf := remaining_range_fuel_family fuel elec rest status h1
  have he := remaining_range_electric_family fuel elec rest status h2
  have hg : rangeProps fuel elec rest ≠ PyObj.null := by
    unfold rangeProps
    exact fun h => PyObj.noConfusion h
  rcases fuel with _ | ⟨vf, uf⟩ <;> rcases elec with _ | ⟨ve, ue⟩ <;>
    simp [VehicleStatus.remaining_range_total, backend_parameter, remaining_range_total_body,
      hf, he, hg, PyObj.truthy, PyObj.index, PyObj.pyAdd, keyErrorToNone,
      pyOr_int_zero, List.get?]

/-- C1 (witness): a fuel-only snapshot with `(100, "km")` totals
`(100, "km")`. -/
theorem remaining_range_total_spec_witness :
    VehicleStatus.remaining_range_total ⟨exampleStatus, rangeProps (some (100, "km")) none []⟩ =
      .ok (.tuple [.int 100, .str "km"]) := by
  have h := remaining_range_total_spec (some (100, "km")) none [] exampleStatus rfl rfl
  simpa using h

/-- C2 (counterexample): with both raw containers absent (`None`), a
decorated access does not fail with the `No data available` `ValueError`
the claim requires: the guard `self.properties is None and self.status`
is falsy (an absent status is falsy), the body runs against the `None`
containers, and its `TypeError` propagates instead. -/
theorem backend_parameter_both_absent_no_valueerror :
    VehicleStatus.lids ⟨PyObj.null, PyObj.null⟩ =
      .error (.typeError "NoneType object is not subscriptable") ∧
    raisesNoData (VehicleStatus.lids ⟨PyObj.null, PyObj.null⟩) = false :=
  ⟨rfl, rfl⟩

/-- C2 (amended): a decorated access fails with the `No data available`
`ValueError` when the properties container is `None` and the status
container is truthy; when the properties container is `None` but the
status container is falsy (in particular when both containers are
absent), the guard does not fire and the access behaves as the wrapped
body under the `KeyError` handler, so the body's own failure propagates
instead of the `ValueError`. -/
theorem backend_parameter_no_data_guard {α : Type} (noneVal : α) (properties status : PyObj)
    (body : Except PyErr α) (hp : properties = PyObj.null) :
    (status.truthy = true →
      backend_parameter noneVal properties status body =
        .error (.valueError "No data available for vehicle status!")) ∧
    (status.truthy = false →
      backend_parameter noneVal properties status body = keyErrorToNone noneVal body) := by
  constructor
  · intro ht
    simp [backend_parameter, hp, ht]
  · intro ht
    simp [backend_parameter, hp, ht]

/-- C2 (witness): properties absent, status a non-empty mapping: the
access fails with the `ValueError`. -/
theorem backend_parameter_no_data_guard_witness :
    backend_parameter (α := PyObj) .null .null (.dict [("k", .int 1)]) (.ok (.int 7)) =
      .error (.valueError "No data available for vehicle status!") :=
  (backend_parameter_no_data_guard _ _ _ _ rfl).1 (by decide)

/-- C3: when the guard does not fire, a `KeyError` raised by the wrapped
body is converted into the absent value and the debug line is logged,
while any other exception propagates to the caller unchanged. -/
theorem backend_parameter_keyerror_policy {α : Type} (noneVal : α) (properties status : PyObj)
    (body : Except PyErr α)
    (hguard : ¬(properties = PyObj.null ∧ status.truthy = true)) :
    (∀ k, body = .error (.keyError k) →
        backend_parameter noneVal properties status body = .ok noneVal ∧
        backend_parameter_logs_debug properties status body = true) ∧
    (∀ e, e.isKeyError = false → body = .error e →
        backend_parameter noneVal properties status body = .error e) := by
  constructor
  · intro k hb
    subst hb
    refine ⟨?_, ?_⟩
    · simp [backend_parameter, hguard, keyErrorToNone]
    · simp [backend_parameter_logs_debug, hguard]
  · intro e he hb
    subst hb
    cases e <;> simp_all [backend_parameter, hguard, keyErrorToNone, PyErr.isKeyError]

/-- C3 (witness): a `KeyError` body yields the absent value and logs;
a `TypeError` body propagates. -/
theorem backend_parameter_keyerror_policy_witness :
    backend_parameter (α := PyObj) .null (.dict [("a", .int 1)]) (.dict [("b", .int 2)])
      (.error (.keyError "x")) = .ok .null ∧
    backend_parameter_logs_debug (α := PyObj) (.dict [("a", .int 1)]) (.dict [("b", .int 2)])
      (.error (.keyError "x")) = true ∧
    backend_parameter (α := PyObj) .null (.dict [("a", .int 1)]) (.dict [("b", .int 2)])
      (.error (.typeError "boom")) = .error (.typeError "boom") := by
  have h := backend_parameter_keyerror_policy (α := PyObj) PyObj.null (PyObj.dict [("a", PyObj.int 1)])
    (PyObj.dict [("b", PyObj.int 2)]) (Except.error (PyErr.keyError "x")) (by decide)
  have h2 := backend_parameter_keyerror_policy (α := PyObj) PyObj.null (PyObj.dict [("a", PyObj.int 1)])
    (PyObj.dict [("b", PyObj.int 2)]) (Except.error (PyErr.typeError "boom")) (by decide)
  exact ⟨(h.1 "x" rfl).1, (h.1 "x" rfl).2, h2.2 (.typeError "boom") rfl rfl⟩

/-- C4: constructing a state object from a raw string code outside the
closed enumeration raises the construction `ValueError` rather than
defaulting: a `Lid` (and `Window`) state outside the `LidState` codes, a
condition-based-service status outside the `ConditionBasedServiceStatus`
codes, and an uppercased door-lock state outside the `LockState` codes. -/
theorem enum_codes_closed :
    (∀ name s, s ∉ LidState.codes →
        Lid.init name (.str s) = .error (.valueError "is not a valid LidState")) ∧
    (∀ name s, s ∉ LidState.codes →
        Window.init name (.str s) = .error (.valueError "is not a valid LidState")) ∧
    (∀ entries s, PyObj.alookup "dateTime" entries = none →
        PyObj.alookup "status" entries = some (.str s) →
        s ∉ ConditionBasedServiceStatus.codes →
        ConditionBasedServiceReport.init (.dict entries) =
          .error (.valueError "is not a valid ConditionBasedServiceStatus")) ∧
    (∀ properties status s, ¬(properties = PyObj.null ∧ status.truthy = true) →
        PyObj.getItem status "doorsGeneralState" = .ok (.str s) →
        pyUpper s ∉ LockState.codes →
        VehicleStatus.door_lock_state ⟨status, properties⟩ =
          .error (.valueError "is not a valid LockState")) := by
  refine ⟨?_, ?_, ?_, ?_⟩
  · intro name s hs
    simp [LidState.codes] at hs
    obtain ⟨g1, g2, g3, g4, g5⟩ := hs
    simp [Lid.init, LidState.ofValue, g1, g2, g3, g4, g5, Except.map]
  · intro name s hs
    simp [LidState.codes] at hs
    obtain ⟨g1, g2, g3, g4, g5⟩ := hs
    simp [Window.init, Lid.init, LidState.ofValue, g1, g2, g3, g4, g5, Except.map]
  · intro entries s hdt hst hs
    simp [ConditionBasedServiceStatus.codes] at hs
    obtain ⟨g1, g2, g3⟩ := hs
    simp [ConditionBasedServiceReport.init, PyObj.dictGet, hdt, parse_datetime_obj, PyObj.truthy,
      PyObj.getItem, hst, ConditionBasedServiceStatus.ofObj, ConditionBasedServiceStatus.ofValue,
      g1, g2, g3]
  · intro properties status s hguard hitem hs
    simp [LockState.codes] at hs
    obtain ⟨g1, g2, g3, g4, g5⟩ := hs
    simp [VehicleStatus.door_lock_state, backend_parameter, hguard, door_lock_state_body, hitem,
      LockState.ofValue, g1, g2, g3, g4, g5, keyErrorToNone]

/-- C4 (witness): the unrecognized codes `AJAR`, `WEIRD` and `Bogus` all
fail loudly. -/
theorem enum_codes_closed_witness :
    Lid.init "hood" (.str "AJAR") = .error (.valueError "is not a valid LidState") ∧
    Window.init "sunroof" (.str "AJAR") = .error (.valueError "is not a valid LidState") ∧
    ConditionBasedServiceReport.init (.dict [("status", .str "WEIRD"), ("type", .str "OIL")]) =
      .error (.valueError "is not a valid ConditionBasedServiceStatus") ∧
    VehicleStatus.door_lock_state ⟨.dict [("doorsGeneralState", .str "Bogus")], propsWithoutRanges⟩ =
      .error (.valueError "is not a valid LockState") := by
  refine ⟨enum_codes_closed.1 "hood" "AJAR" (by decide),
    enum_codes_closed.2.1 "sunroof" "AJAR" (by decide),
    enum_codes_closed.2.2.1 [("status", .str "WEIRD"), ("type", .str "OIL")] "WEIRD" rfl rfl
      (by decide),
    enum_codes_closed.2.2.2 propsWithoutRanges (.dict [("doorsGeneralState", .str "Bogus")]) "Bogus"
      (by decide) rfl (by decide)⟩

/-- C5: `parse_datetime` is a total function into an optional datetime (no
exception reaches the caller): `None` and the empty string yield the
absent value without a diagnostic, and a non-empty string matching none of
the four formats yields the absent value with the non-fatal error
diagnostic. -/
theorem parse_datetime_never_raises :
    parse_datetime none = none ∧ parse_datetime (some "") = none ∧
    parse_datetime_logs_error none = false ∧ parse_datetime_logs_error (some "") = false ∧
    (∀ s : String, s ≠ "" → strptimeFracOffset s = none → strptimeOffset s = none →
      strptimeFracZ s = none → strptimeZ s = none →
      parse_datetime (some s) = none ∧ parse_datetime_logs_error (some s) = true) := by
  refine ⟨rfl, rfl, rfl, rfl, ?_⟩
  intro s hs h1 h2 h3 h4
  constructor
  · simp [parse_datetime, hs, firstParse, h1, h2, h3, h4]
  · simp [parse_datetime_logs_error, hs, firstParse, h1, h2, h3, h4]

/-- C5 (witness): a garbage string parses to the absent value and logs
the diagnostic. -/
theorem parse_datetime_never_raises_witness :
    parse_datetime (some "not-a-date") = none ∧
    parse_datetime_logs_error (some "not-a-date") = true :=
  parse_datetime_never_raises.2.2.2.2 "not-a-date" (by decide) rfl rfl rfl rfl

/-- Format 1 (`%Y-%m-%dT%H:%M:%S.%f%z`) only succeeds with an offset, so
its results are timezone-aware. -/
theorem strptimeFracOffset_aware (s : String) (dt : PyDateTime)
    (h : strptimeFracOffset s = some dt) : dt.tz.isSome = true := by
  unfold strptimeFracOffset at h
  cases hp : parseCommonPrefix s.data with
  | none => simp [hp] at h
  | some pr =>
    obtain ⟨f, rest⟩ := pr
    simp only [hp] at h
    cases hd : expectCharCI '.' rest with
    | none => simp [hd] at h
    | some rest2 =>
      simp only [hd] at h
      cases hf : parseFrac rest2 with
      | none => simp [hf] at h
      | some pr2 =>
        obtain ⟨usec, rest3⟩ := pr2
        simp only [hf] at h
        split at h
        · next off heq =>
            unfold mkDateTime at h
            split at h
            · cases Option.some.inj h; rfl
            · cases h
        · cases h

/-- Format 2 (`%Y-%m-%dT%H:%M:%S%z`) only succeeds with an offset, so its
results are timezone-aware. -/
theorem strptimeOffset_aware (s : String) (dt : PyDateTime)
    (h : strptimeOffset s = some dt) : dt.tz.isSome = true := by
  unfold strptimeOffset at h
  cases hp : parseCommonPrefix s.data with
  | none => simp [hp] at h
  | some pr =>
    obtain ⟨f, rest⟩ := pr
    simp only [hp] at h
    split at h
    · next off heq =>
        unfold mkDateTime at h
        split at h
        · cases Option.some.inj h; rfl
        · cases h
    · cases h

/-- Format 3 (fraction and literal `Z`) has no `%z` directive, so its
results are naive. -/
theorem strptimeFracZ_naive (s : String) (dt : PyDateTime)
    (h : strptimeFracZ s = some dt) : dt.tz = none := by
  unfold strptimeFracZ at h
  cases hp : parseCommonPrefix s.data with
  | none => simp [hp] at h
  | some pr =>
    obtain ⟨f, rest⟩ := pr
    simp only [hp] at h
    cases hd : expectCharCI '.' rest with
    | none => simp [hd] at h
    | some rest2 =>
      simp only [hd] at h
      cases hf : parseFrac rest2 with
      | none => simp [hf] at h
      | some pr2 =>
        obtain ⟨usec, rest3⟩ := pr2
        simp only [hf] at h
        split at h
        · unfold mkDateTime at h
          split at h
          · cases Option.some.inj h; rfl
          · cases h
        · cases h

/-- Format 4 (literal `Z`) has no `%z` directive, so its results are
naive. -/
theorem strptimeZ_naive (s : String) (dt : PyDateTime)
    (h : strptimeZ s = some dt) : dt.tz = none := by
  unfold strptimeZ at h
  cases hp : parseCommonPrefix s.data with
  | none => simp [hp] at h
  | some pr =>
    obtain ⟨f, rest⟩ := pr
    simp only [hp] at h
    split at h
    · unfold mkDateTime at h
      split at h
      · cases Option.some.inj h; rfl
      · cases h
    · cases h

/-- C6 (counterexample): the frozen claim asserts a timezone-aware result
for every string matching one of the four patterns.  A string with a
lowercase trailing `z` is rejected by the two `%z` formats (the `Z`
alternative of `%z` is case-sensitive) but accepted by the fourth format,
whose literal `Z` matches either case under the `IGNORECASE` compilation
of the format regex, and the parsed result is a naive datetime. -/
theorem parse_datetime_lowercase_z_naive :
    (strptimeZ "2021-11-12T16:06:55z").isSome = true ∧
    parse_datetime (some "2021-11-12T16:06:55z") =
      some ⟨2021, 11, 12, 16, 6, 55, 0, none⟩ ∧
    (parse_datetime (some "2021-11-12T16:06:55z")).map PyDateTime.tz = some none :=
  ⟨by decide, by decide, by decide⟩

/-- C6 (amended): for every string accepted by at least one of the four
formats, `parse_datetime` returns the result of the first format in the
fixed order that parses successfully and the result is present; the
result is timezone-aware exactly when one of the two `%z` formats (the
first two tried) accepts the string, i.e. when the string carries an
explicit offset or the uppercase literal `Z`, while a string accepted
only by the literal-`Z` formats (possible with a lowercase trailing `z`)
yields a naive datetime. -/
theorem parse_datetime_first_match_offset_aware (s : String)
    (hmatch : (strptimeFracOffset s).isSome = true ∨ (strptimeOffset s).isSome = true ∨
      (strptimeFracZ s).isSome = true ∨ (strptimeZ s).isSome = true) :
    (∀ dt, strptimeFracOffset s = some dt → parse_datetime (some s) = some dt) ∧
    (strptimeFracOffset s = none → ∀ dt, strptimeOffset s = some dt →
      parse_datetime (some s) = some dt) ∧
    (strptimeFracOffset s = none → strptimeOffset s = none → ∀ dt, strptimeFracZ s = some dt →
      parse_datetime (some s) = some dt) ∧
    (strptimeFracOffset s = none → strptimeOffset s = none → strptimeFracZ s = none →
      ∀ dt, strptimeZ s = some dt → parse_datetime (some s) = some dt) ∧
    (parse_datetime (some s)).isSome = true ∧
    (∀ dt, parse_datetime (some s) = some dt →
      (dt.tz.isSome = true ↔
        (strptimeFracOffset s).isSome = true ∨ (strptimeOffset s).isSome = true)) := by
  have hs : s ≠ "" := by
    intro he
    subst he
    rcases hmatch with hm | hm | hm | hm
    · rw [show strptimeFracOffset "" = none from rfl] at hm; cases hm
    · rw [show strptimeOffset "" = none from rfl] at hm; cases hm
    · rw [show strptimeFracZ "" = none from rfl] at hm; cases hm
    · rw [show strptimeZ "" = none from rfl] at hm; cases hm
  have hpd : parse_datetime (some s) = firstParse s := by
    simp [parse_datetime, hs]
  refine ⟨?_, ?_, ?_, ?_, ?_, ?_⟩
  · intro dt h1
    rw [hpd]
    simp [firstParse, h1]
  · intro h1 dt h2
    rw [hpd]
    simp [firstParse, h1, h2]
  · intro h1 h2 dt h3
    rw [hpd]
    simp [firstParse, h1, h2, h3]
  · intro h1 h2 h3 dt h4
    rw [hpd]
    simp [firstParse, h1, h2, h3, h4]
  · rw [hpd]
    unfold firstParse
    cases h1 : strptimeFracOffset s with
    | some d => rfl
    | none =>
      cases h2 : strptimeOffset s with
      | some d => rfl
      | none =>
        cases h3 : strptimeFracZ s with
        | some d => rfl
        | none =>
          rcases hmatch with hm | hm | hm | hm
          · rw [h1] at hm; cases hm
          · rw [h2] at hm; cases hm
          · rw [h3] at hm; cases hm
          · exact hm
  · intro dt h
    rw [hpd] at h
    unfold firstParse at h
    cases h1 : strptimeFracOffset s with
    | some d =>
      simp only [h1] at h
      simp [strptimeFracOffset_aware s dt (h1.trans h), h1]
    | none =>
      simp only [h1] at h
      cases h2 : strptimeOffset s with
      | some d =>
        simp only [h2] at h
        simp [strptimeOffset_aware s dt (h2.trans h), h1, h2]
      | none =>
        simp only [h2] at h
        cases h3 : strptimeFracZ s with
        | some d =>
          simp only [h3] at h
          simp [strptimeFracZ_naive s dt (h3.trans h), h1, h2]
        | none =>
          simp only [h3] at h
          simp [strptimeZ_naive s dt h, h1, h2]

/-- C6 (witness): an uppercase literal-UTC string is taken by the second
format (whose `%z` accepts the literal `Z`) and parses timezone-aware. -/
theorem parse_datetime_first_match_offset_aware_witness :
    parse_datetime (some "2021-11-12T16:06:55Z") =
      some ⟨2021, 11, 12, 16, 6, 55, 0, some 0⟩ := by
  have h := parse_datetime_first_match_offset_aware "2021-11-12T16:06:55Z"
    (Or.inr (Or.inl (by decide)))
  exact h.2.1 (by decide) ⟨2021, 11, 12, 16, 6, 55, 0, some 0⟩ (by decide)

/-- C7: over every snapshot whose `doorsAndWindows` mapping consists of
fixed-name entries with enumeration-code states, the nested `doors`
mapping, and further entries named neither `hood`, `trunk` nor `doors`,
the `lids` property returns exactly the `hood`/`trunk` entries of the
outer mapping followed by all entries of the `doors` mapping, in order,
excluding every entry whose raw state equals the `INVALID` sentinel. -/
theorem lids_exact (fixed doors : List (String × LidState)) (rest restProps : List (String × PyObj))
    (status : PyObj)
    (hdk : ∀ p ∈ fixed, p.1 ≠ "doors")
    (hrk : ∀ p ∈ rest, p.1 ≠ "hood" ∧ p.1 ≠ "trunk") :
    VehicleStatus.lids
        ⟨status, .dict (("doorsAndWindows", mkDoorsAndWindows fixed doors rest) :: restProps)⟩ =
      .ok (some (
        (fixed.filter (fun p => (p.1 = "hood" || p.1 = "trunk") && p.2 ≠ LidState.INVALID)).map
          (fun p => ⟨p.1, p.2⟩) ++
        (doors.filter (fun p => p.2 ≠ LidState.INVALID)).map (fun p => ⟨p.1, p.2⟩))) := by
  have hkey : ∀ p ∈ lidEntries fixed, p.1 ≠ "doors" := by
    intro p hp
    simp only [lidEntries, List.mem_map] at hp
    obtain ⟨q, hq, rfl⟩ := hp
    exact hdk q hq
  have hdoors2 : PyObj.alookup "doors"
      (lidEntries fixed ++ ("doors", PyObj.dict (lidEntries doors)) :: rest) =
      some (PyObj.dict (lidEntries doors)) := by
    rw [alookup_skip "doors" (lidEntries fixed)
      (("doors", PyObj.dict (lidEntries doors)) :: rest) hkey]
    simp [PyObj.alookup]
  have h3 : List.filter
      (fun p => (decide (p.1 = "hood") || decide (p.1 = "trunk")) && !decide (p.2 = PyObj.str "INVALID"))
      rest = [] := by
    refine List.filter_eq_nil_iff.mpr (fun p hp => ?_)
    simp [(hrk p hp).1, (hrk p hp).2]
  have hfixloop : List.mapM.loop (fun p => Lid.init p.1 p.2)
      (List.filter
        (fun p => (decide (p.1 = "hood") || decide (p.1 = "trunk")) && !decide (p.2 = PyObj.str "INVALID"))
        (lidEntries fixed)) [] =
      Except.ok (List.map (fun p => ({ name := p.1, state := p.2 } : Lid))
        (List.filter
          (fun p => (decide (p.1 = "hood") || decide (p.1 = "trunk")) && !decide (p.2 = LidState.INVALID))
          fixed)) := by
    simpa using mapM_loop_init
      (fun p => (decide (p.1 = "hood") || decide (p.1 = "trunk")) && !decide (p.2 = PyObj.str "INVALID"))
      (fun p => (decide (p.1 = "hood") || decide (p.1 = "trunk")) && !decide (p.2 = LidState.INVALID))
      (by intro k st; cases st <;> simp [LidState.value]) fixed []
  have hdloop : List.mapM.loop (fun p => Lid.init p.1 p.2)
      (List.filter (fun p => !decide (p.2 = PyObj.str "INVALID")) (lidEntries doors)) [] =
      Except.ok (List.map (fun p => ({ name := p.1, state := p.2 } : Lid))
        (List.filter (fun p => !decide (p.2 = LidState.INVALID)) doors)) := by
    simpa using mapM_loop_init
      (fun p => !decide (p.2 = PyObj.str "INVALID"))
      (fun p => !decide (p.2 = LidState.INVALID))
      (by intro k st; cases st <;> simp [LidState.value]) doors []
  simp [VehicleStatus.lids, backend_parameter, lids_body, mkDoorsAndWindows,
    PyObj.getItem, PyObj.alookup, PyObj.items, keyErrorToNone, h3, hfixloop, hdoors2, hdloop]

/-- C7 (witness): a snapshot with a closed hood, an open trunk and two
doors (one `INVALID`) lists the three valid lids in order. -/
theorem lids_exact_witness :
    VehicleStatus.lids ⟨exampleStatus, .dict [("doorsAndWindows",
        mkDoorsAndWindows [("hood", .CLOSED), ("trunk", .OPEN)]
          [("driverFront", .CLOSED), ("passengerRear", .INVALID)] [])]⟩ =
      .ok (some [⟨"hood", .CLOSED⟩, ⟨"trunk", .OPEN⟩, ⟨"driverFront", .CLOSED⟩]) := by
  have h := lids_exact [("hood", .CLOSED), ("trunk", .OPEN)]
    [("driverFront", .CLOSED), ("passengerRear", .INVALID)] [] [] exampleStatus
    (by decide) (by decide)
  simpa using h

/-- C8: whenever the decorated `lids` property yields a list,
`open_lids` is its pure filter by `state != CLOSED`, and
`all_lids_closed` holds exactly when that filter is empty (the boolean
negation of any lid being open), for every combination of lid states. -/
theorem open_lids_filter_all_closed (vs : VehicleStatus) (ls : List Lid)
    (h : vs.lids = .ok (some ls)) :
    vs.open_lids = .ok (ls.filter (fun l => !l.is_closed)) ∧
    vs.all_lids_closed = .ok (decide (ls.filter (fun l => !l.is_closed) = [])) ∧
    (vs.all_lids_closed = .ok true ↔ vs.open_lids = .ok []) := by
  have ho : vs.open_lids = .ok (ls.filter (fun l => !l.is_closed)) := by
    simp [VehicleStatus.open_lids, h]
  have ha : vs.all_lids_closed = .ok (decide (ls.filter (fun l => !l.is_closed) = [])) := by
    simp [VehicleStatus.all_lids_closed, ho, List.length_eq_zero]
  refine ⟨ho, ha, ?_⟩
  rw [ho, ha]
  simp

/-- C8 (witness): with one open trunk among three lids, `open_lids` is
the one-element filter and `all_lids_closed` is false. -/
theorem open_lids_filter_all_closed_witness :
    VehicleStatus.open_lids ⟨exampleStatus, .dict [("doorsAndWindows", .dict
      [("hood", .str "CLOSED"), ("trunk", .str "OPEN"),
       ("doors", .dict [("driverFront", .str "CLOSED")])])]⟩ = .ok [⟨"trunk", .OPEN⟩] ∧
    VehicleStatus.all_lids_closed ⟨exampleStatus, .dict [("doorsAndWindows", .dict
      [("hood", .str "CLOSED"), ("trunk", .str "OPEN"),
       ("doors", .dict [("driverFront", .str "CLOSED")])])]⟩ = .ok false := by
  have h := open_lids_filter_all_closed ⟨exampleStatus, .dict [("doorsAndWindows", .dict
      [("hood", .str "CLOSED"), ("trunk", .str "OPEN"),
       ("doors", .dict [("driverFront", .str "CLOSED")])])]⟩
    [⟨"hood", .CLOSED⟩, ⟨"trunk", .OPEN⟩, ⟨"driverFront", .CLOSED⟩] (by decide)
  exact ⟨by simpa [Lid.is_closed] using h.1, by simpa [Lid.is_closed] using h.2.1⟩

/-- C9: over every snapshot whose raw check-control entries all carry a
`state` item, `check_control_messages` wraps exactly the entries whose
state differs from `"OK"`, in order, and `has_check_control_messages` is
true exactly when that filtered list is non-empty. -/
theorem check_control_messages_exact (msgs : List PyObj) (restStatus : List (String × PyObj))
    (properties : PyObj) (hp : properties ≠ PyObj.null)
    (hm : ∀ m ∈ msgs, (m.getItem "state").isOk = true) :
    VehicleStatus.check_control_messages
        ⟨.dict (("checkControlMessages", .list msgs) :: restStatus), properties⟩ =
      .ok (some ((msgs.filter stateNotOK).map (fun m => ⟨m⟩))) ∧
    VehicleStatus.has_check_control_messages
        ⟨.dict (("checkControlMessages", .list msgs) :: restStatus), properties⟩ =
      .ok (some (decide (0 < (msgs.filter stateNotOK).length))) ∧
    (VehicleStatus.has_check_control_messages
        ⟨.dict (("checkControlMessages", .list msgs) :: restStatus), properties⟩ =
      .ok (some true) ↔ msgs.filter stateNotOK ≠ []) := by
  have hguard : ¬(properties = PyObj.null ∧
      PyObj.truthy (.dict (("checkControlMessages", .list msgs) :: restStatus)) = true) := by
    intro hc; exact hp hc.1
  have hccm : VehicleStatus.check_control_messages
      ⟨.dict (("checkControlMessages", .list msgs) :: restStatus), properties⟩ =
      .ok (some ((msgs.filter stateNotOK).map (fun m => ⟨m⟩))) := by
    simp [VehicleStatus.check_control_messages, backend_parameter, hguard,
      check_control_messages_body, PyObj.dictGet, PyObj.alookup, PyObj.iterate,
      keepStateNotOK_filter msgs hm, keyErrorToNone]
  have hb : VehicleStatus.has_check_control_messages
      ⟨.dict (("checkControlMessages", .list msgs) :: restStatus), properties⟩ =
      .ok (some (decide (0 < (msgs.filter stateNotOK).length))) := by
    simp [VehicleStatus.has_check_control_messages, backend_parameter, hguard,
      has_check_control_messages_body, hccm, keyErrorToNone]
  refine ⟨hccm, hb, ?_⟩
  rw [hb]
  simp [List.length_pos]

/-- C9 (witness): of an `OK` and a `CRITICAL` entry, only the `CRITICAL`
one is surfaced and messages are reported present. -/
theorem check_control_messages_exact_witness :
    VehicleStatus.check_control_messages ⟨.dict [("checkControlMessages", .list
        [.dict [("state", .str "OK"), ("id", .int 1)],
         .dict [("state", .str "CRITICAL"), ("id", .int 2)]])], propsWithoutRanges⟩ =
      .ok (some [⟨.dict [("state", .str "CRITICAL"), ("id", .int 2)]⟩]) ∧
    VehicleStatus.has_check_control_messages ⟨.dict [("checkControlMessages", .list
        [.dict [("state", .str "OK"), ("id", .int 1)],
         .dict [("state", .str "CRITICAL"), ("id", .int 2)]])], propsWithoutRanges⟩ =
      .ok (some true) := by
  have h := check_control_messages_exact
    [.dict [("state", .str "OK"), ("id", .int 1)], .dict [("state", .str "CRITICAL"), ("id", .int 2)]]
    [] propsWithoutRanges (by decide) (by decide)
  exact ⟨by simpa using h.1, h.2.2.mpr (by decide)⟩

/-- C10: when the `doorsAndWindows` mapping lacks a `windows` key, the
`windows` property raises the `AttributeError` coming from calling
`.items()` on the `None` returned by `.get("windows")`, and this error
propagates to the caller instead of being converted into an absent value
or an empty list. -/
theorem windows_missing_attribute_error (dwEntries rest : List (String × PyObj)) (status : PyObj)
    (h : PyObj.alookup "windows" dwEntries = none) :
    VehicleStatus.windows ⟨status, .dict (("doorsAndWindows", .dict dwEntries) :: rest)⟩ =
      .error (.attributeError "NoneType object has no attribute items") := by
  simp [VehicleStatus.windows, backend_parameter, windows_body, PyObj.getItem, PyObj.alookup,
    PyObj.dictGet, h, PyObj.items, keyErrorToNone, Except.map]

/-- C10 (witness): a `doorsAndWindows` mapping with only a hood entry
makes the `windows` property fail with the `AttributeError`. -/
theorem windows_missing_attribute_error_witness :
    VehicleStatus.windows ⟨exampleStatus, .dict [("doorsAndWindows", .dict [("hood", .str "CLOSED")])]⟩ =
      .error (.attributeError "NoneType object has no attribute items") :=
  windows_missing_attribute_error [("hood", .str "CLOSED")] [] exampleStatus rfl
